import Mathlib

/-!
Verification of the django_auto_crud scaffolding library.

The Python source is shallowly embedded: each relevant Python function is
translated into an executable Lean definition, with Python objects
(model instances, settings, requests) represented by explicit structures,
Python `None` by `Option`, and raised exceptions by `Except`/dedicated
outcome constructors.  Theorems about these definitions settle the claims
of the specification.
-/

namespace DjangoAutoCrud

/-- Association-list lookup, modelling Python `dict` indexing / `dict.get`:
the value bound to the first occurrence of the key, if any. -/
def lookupKey {β : Type} : List (String × β) → String → Option β
  | [], _ => none
  | (k, v) :: rest, key => if k = key then some v else lookupKey rest key

/-! ## utils/urls.py : generate_crud_templates

A generated URL pattern is represented by its route string and its name
string (the attached view object plays no part in the claims). -/

/-- One entry of the `url_patterns` list built by `generate_crud_templates`:
the `route=` and `name=` arguments of the `path(...)` call. -/
structure UrlPattern where
  route : String
  name : String
deriving DecidableEq, Repr

/-- Python `s.endswith('/')`: whether the last character of `s` is a slash. -/
def endsWithSlash (s : String) : Bool :=
  match s.toList.getLast? with
  | some c => c = '/'
  | none => false

/-- Embedding of `generate_crud_templates` (src/utils/urls.py lines 14-107).
`model_name` stands for `model._meta.model_name`.  The function first
appends a trailing slash to `path_route` when absent, then appends one
pattern per enabled flag, in the order list, create, detail, update,
delete. -/
def generate_crud_templates (model_name : String) (path_route : String)
    (is_list is_create is_detail is_update is_delete : Bool) :
    List UrlPattern :=
  let route := if endsWithSlash path_route then path_route else path_route ++ "/"
  (if is_list then [⟨route, model_name ++ "_list"⟩] else []) ++
  (if is_create then [⟨route ++ "create/", model_name ++ "_create"⟩] else []) ++
  (if is_detail then [⟨route ++ "<int:pk>/", model_name ++ "_detail"⟩] else []) ++
  (if is_update then [⟨route ++ "<int:pk>/update/", model_name ++ "_update"⟩] else []) ++
  (if is_delete then [⟨route ++ "<int:pk>/delete/", model_name ++ "_delete"⟩] else [])

/-- Embedding of `generate_crud_urlpatterns` (src/utils/urls.py lines
110-124): concatenates the CRUD templates of each model, with
`path_route = model_name + "/"` and all five flags left at their `True`
defaults. -/
def generate_crud_urlpatterns (model_names : List String) : List UrlPattern :=
  model_names.foldl
    (fun acc m => acc ++ generate_crud_templates m (m ++ "/") true true true true true) []

example :
    generate_crud_templates "book" "books" true true true true true =
      [⟨"books/", "book_list"⟩, ⟨"books/create/", "book_create"⟩,
       ⟨"books/<int:pk>/", "book_detail"⟩, ⟨"books/<int:pk>/update/", "book_update"⟩,
       ⟨"books/<int:pk>/delete/", "book_delete"⟩] := by decide

example :
    generate_crud_templates "book" "books/" false true false true false =
      [⟨"books/create/", "book_create"⟩, ⟨"books/<int:pk>/update/", "book_update"⟩] := by
  decide

/-- C1: with all five flags enabled, `generate_crud_templates` returns exactly
five URL patterns, in the order list, create, detail, update, delete, named
`<model_name>_list` .. `<model_name>_delete`, with routes `path_route` (slash
appended if absent), `path_route ++ "create/"`, `path_route ++ "<int:pk>/"`,
`path_route ++ "<int:pk>/update/"`, `path_route ++ "<int:pk>/delete/"`; and
for an arbitrary flag assignment the result is that five-element list with
exactly the patterns of the disabled flags omitted. -/
theorem crud_templates_five_patterns_and_flag_filter (m r : String) :
    (generate_crud_templates m r true true true true true =
      [⟨if endsWithSlash r then r else r ++ "/", m ++ "_list"⟩,
       ⟨(if endsWithSlash r then r else r ++ "/") ++ "create/", m ++ "_create"⟩,
       ⟨(if endsWithSlash r then r else r ++ "/") ++ "<int:pk>/", m ++ "_detail"⟩,
       ⟨(if endsWithSlash r then r else r ++ "/") ++ "<int:pk>/update/", m ++ "_update"⟩,
       ⟨(if endsWithSlash r then r else r ++ "/") ++ "<int:pk>/delete/", m ++ "_delete"⟩]) ∧
    ∀ is_list is_create is_detail is_update is_delete : Bool,
      generate_crud_templates m r is_list is_create is_detail is_update is_delete =
        (([is_list, is_create, is_detail, is_update, is_delete].zip
            (generate_crud_templates m r true true true true true)).filter
          (fun p => p.1)).map (fun p => p.2) := by
  refine ⟨rfl, ?_⟩
  intro l c d u e
  cases l <;> cases c <;> cases d <;> cases u <;> cases e <;> rfl

/-! ## templatetags/django_auto_crud_tags.py : group_urls_by_model -/

/-- Python `name.split('_', 1)` on a character list: the characters before
the first underscore and, when an underscore occurs, the characters after
it. -/
def splitUnderscoreChars : List Char → List Char × Option (List Char)
  | [] => ([], none)
  | c :: cs =>
      if c = '_' then ([], some cs)
      else
        let r := splitUnderscoreChars cs
        (c :: r.1, r.2)

/-- Python `name.split('_', 1)`: `(part before the first underscore,
remainder after it)`, the second component `none` when the name contains no
underscore (`len(path_name) == 1` in the source). -/
def splitUnderscoreOnce (s : String) : String × Option String :=
  let r := splitUnderscoreChars s.toList
  (String.mk r.1, r.2.map String.mk)

/-- `crud_groups[model_name] = crud_groups.get(model_name, []) + [crud_name]`
on an insertion-ordered association list: appends the value to the entry of
the key when present, otherwise adds a new entry at the end (Python dicts
keep insertion order). -/
def dictAppend (acc : List (String × List (Option String))) (k : String)
    (v : Option String) : List (String × List (Option String)) :=
  match acc with
  | [] => [(k, [v])]
  | (k0, l) :: rest =>
      if k0 = k then (k0, l ++ [v]) :: rest else (k0, l) :: dictAppend rest k v

/-- Embedding of `group_urls_by_model` (src/templatetags/django_auto_crud_tags.py
lines 426-443); a URL pattern contributes only its `name`. -/
def group_urls_by_model (names : List String) :
    List (String × List (Option String)) :=
  names.foldl
    (fun acc nm => dictAppend acc (splitUnderscoreOnce nm).1 (splitUnderscoreOnce nm).2) []

/-- Spec-side description of the key a name is grouped under: the part of the
name before its first underscore. -/
def modelPartOf (s : String) : String :=
  String.mk (s.toList.takeWhile (fun c => c ≠ '_'))

/-- Spec-side description of the value a name contributes: the remainder
after the first underscore, `none` when the name contains no underscore. -/
def crudPartOf (s : String) : Option String :=
  if s.toList.contains '_' then
    some (String.mk ((s.toList.dropWhile (fun c => c ≠ '_')).tail))
  else none

/-- Spec-side description of the value list for a key: the contributions, in
input order, of the names grouped under that key. -/
def groupValsFor (names : List String) (k : String) : List (Option String) :=
  names.filterMap (fun nm => if modelPartOf nm = k then some (crudPartOf nm) else none)

theorem splitUnderscoreChars_eq (l : List Char) :
    splitUnderscoreChars l =
      (l.takeWhile (fun c => c ≠ '_'),
       if l.contains '_' then some ((l.dropWhile (fun c => c ≠ '_')).tail)
       else none) := by
  induction l with
  | nil => simp [splitUnderscoreChars]
  | cons c cs ih =>
    by_cases hc : c = '_'
    · subst hc
      simp [splitUnderscoreChars]
    · have hc' : ¬('_' = c) := fun h => hc h.symm
      simp [splitUnderscoreChars, hc, hc', ih, List.contains_cons]

theorem splitUnderscoreOnce_eq (s : String) :
    splitUnderscoreOnce s = (modelPartOf s, crudPartOf s) := by
  unfold splitUnderscoreOnce modelPartOf crudPartOf
  rw [splitUnderscoreChars_eq]
  by_cases h : s.toList.contains '_' <;> simp [h]

theorem lookup_dictAppend (acc : List (String × List (Option String)))
    (m k : String) (c : Option String) :
    lookupKey (dictAppend acc m c) k =
      if m = k then
        match lookupKey acc k with
        | some l => some (l ++ [c])
        | none => some [c]
      else lookupKey acc k := by
  induction acc with
  | nil => by_cases h : m = k <;> simp [dictAppend, lookupKey, h]
  | cons p rest ih =>
    obtain ⟨k0, l⟩ := p
    by_cases h0 : k0 = m
    · subst h0
      by_cases hk : k0 = k
      · subst hk
        simp [dictAppend, lookupKey]
      · simp [dictAppend, lookupKey, hk, fun h : k0 = k => hk h]
    · by_cases hk : k0 = k
      · subst hk
        have hmk : ¬(m = k0) := fun h => h0 h.symm
        simp [dictAppend, lookupKey, h0, hmk]
      · simp [dictAppend, lookupKey, h0, hk, ih]

theorem lookup_group_aux (names : List String)
    (acc : List (String × List (Option String))) (k : String) :
    lookupKey
        (names.foldl
          (fun acc nm =>
            dictAppend acc (splitUnderscoreOnce nm).1 (splitUnderscoreOnce nm).2)
          acc) k =
      match lookupKey acc k with
      | some l => some (l ++ groupValsFor names k)
      | none =>
          if groupValsFor names k = [] then none else some (groupValsFor names k) := by
  induction names generalizing acc with
  | nil =>
    cases h : lookupKey acc k <;> simp [groupValsFor, h]
  | cons nm names ih =>
    rw [List.foldl_cons, ih]
    rw [lookup_dictAppend, splitUnderscoreOnce_eq]
    by_cases hm : modelPartOf nm = k
    · cases h : lookupKey acc k <;>
        simp [hm, h, groupValsFor]
    · cases h : lookupKey acc k <;>
        simp [hm, h, groupValsFor]

/-- C3: `group_urls_by_model` maps each key `k` (a pattern name's part before
its first underscore) to the list, in input order, of the remainders after
the first underscore of the names grouped under `k`, `none` recorded for a
name containing no underscore; keys with no contributing name are absent. -/
theorem group_urls_by_model_spec (names : List String) (k : String) :
    lookupKey (group_urls_by_model names) k =
      (if groupValsFor names k = [] then none else some (groupValsFor names k)) := by
  have h := lookup_group_aux names [] k
  simpa [group_urls_by_model, lookupKey] using h

/-! ## templatetags/django_auto_crud_tags.py : check_active_item

`resolve(current_url)` is the host framework's URL resolver; it is kept
abstract as a function from the current URL to the resolved match's
`url_name` (an `Option String`, since a match may carry no name). -/

/-- Embedding of `check_active_item` (src/templatetags/django_auto_crud_tags.py
lines 355-368): walk `crud_names` and return `true` on the first name with
`match.url_name == f'{model_name}_{crud_name}'`, `false` when the loop
ends. -/
def check_active_item (resolved_url_name : Option String) (model_name : String) :
    List String → Bool
  | [] => false
  | crud_name :: rest =>
      if resolved_url_name = some (model_name ++ "_" ++ crud_name) then true
      else check_active_item resolved_url_name model_name rest

/-- C8: `check_active_item` returns `true` iff the url name resolved from the
current URL equals `model_name ++ "_" ++ crud_name` for at least one
`crud_name` in the list. -/
theorem check_active_item_iff (resolve : String → Option String)
    (current_url model_name : String) (crud_names : List String) :
    check_active_item (resolve current_url) model_name crud_names = true ↔
      ∃ crud_name ∈ crud_names,
        resolve current_url = some (model_name ++ "_" ++ crud_name) := by
  induction crud_names with
  | nil => simp [check_active_item]
  | cons c rest ih =>
    by_cases h : resolve current_url = some (model_name ++ "_" ++ c)
    · simp [check_active_item, h]
    · simp [check_active_item, h, ih]

/-! ## utils/views.py : get_template_path

`settings.TEMPLATE_PATHS` is modelled as `Option (List (String × Option String))`:
`none` when the setting is absent (`AttributeError`), otherwise the dict as
an association list whose values are Python strings or `None`. -/

/-- The built-in default dict of `get_template_path` followed by `.get(template)`
(src/utils/views.py lines 131-143): the default path for the eight template
keys, the explicit `None` entries for the navbar and sidebar keys, and `None`
for any other key. -/
def default_template_path (template : String) : Option String :=
  if template = "base" then some "django_auto_crud/theme/base.html"
  else if template = "list" then some "django_auto_crud/crud/list.html"
  else if template = "create" then some "django_auto_crud/crud/create.html"
  else if template = "detail" then some "django_auto_crud/crud/detail.html"
  else if template = "detail_ajax" then some "django_auto_crud/crud/detail_ajax.html"
  else if template = "update" then some "django_auto_crud/crud/update.html"
  else if template = "delete" then some "django_auto_crud/crud/delete.html"
  else if template = "form" then some "django_auto_crud/crud/form.html"
  else none

/-- Embedding of `get_template_path` (src/utils/views.py lines 121-143):
`settings.TEMPLATE_PATHS[template]` when the setting exists and holds the
key; on `AttributeError` (setting absent) or `KeyError` (key missing) the
default dict's `.get(template)`. -/
def get_template_path (template_paths : Option (List (String × Option String)))
    (template : String) : Option String :=
  match template_paths with
  | none => default_template_path template
  | some d =>
      match lookupKey d template with
      | none => default_template_path template
      | some v => v

/-- C5: `get_template_path` returns `TEMPLATE_PATHS[key]` when the setting
exists and contains the key; otherwise the built-in default for the eight
known keys, `none` for the navbar/sidebar keys and for every unknown key;
being a total function, it raises nothing. -/
theorem get_template_path_spec (d : List (String × Option String)) (key : String)
    (v : Option String) :
    (lookupKey d key = some v → get_template_path (some d) key = v) ∧
    ((lookupKey d key = none → get_template_path (some d) key = default_template_path key) ∧
      get_template_path none key = default_template_path key) ∧
    (default_template_path "base" = some "django_auto_crud/theme/base.html" ∧
      default_template_path "list" = some "django_auto_crud/crud/list.html" ∧
      default_template_path "create" = some "django_auto_crud/crud/create.html" ∧
      default_template_path "detail" = some "django_auto_crud/crud/detail.html" ∧
      default_template_path "detail_ajax" = some "django_auto_crud/crud/detail_ajax.html" ∧
      default_template_path "update" = some "django_auto_crud/crud/update.html" ∧
      default_template_path "delete" = some "django_auto_crud/crud/delete.html" ∧
      default_template_path "form" = some "django_auto_crud/crud/form.html") ∧
    (key ∉ ["base", "list", "create", "detail", "detail_ajax", "update", "delete",
        "form"] →
      get_template_path none key = none) := by
  refine ⟨?_, ⟨?_, rfl⟩, ?_, ?_⟩
  · intro h
    simp [get_template_path, h]
  · intro h
    simp [get_template_path, h]
  · refine ⟨rfl, rfl, rfl, rfl, rfl, rfl, rfl, rfl⟩
  · intro h
    simp only [List.mem_cons, List.mem_singleton, not_or] at h
    obtain ⟨h1, h2, h3, h4, h5, h6, h7, h8, _⟩ := h
    simp [get_template_path, default_template_path, h1, h2, h3, h4, h5, h6, h7, h8]

theorem get_template_path_spec_witness :
    get_template_path (some [("list", some "custom/list.html")]) "list" =
        some "custom/list.html" ∧
    get_template_path (some [("list", some "custom/list.html")]) "base" =
        some "django_auto_crud/theme/base.html" ∧
    get_template_path none "navbar_left" = none := by
  refine ⟨?_, ?_, ?_⟩
  · exact (get_template_path_spec [("list", some "custom/list.html")] "list"
      (some "custom/list.html")).1 (by decide)
  · have h := (get_template_path_spec [("list", some "custom/list.html")] "base"
      none).2.1.1 (by decide)
    simpa using h
  · exact (get_template_path_spec [] "navbar_left" none).2.2.2 (by decide)

/-! ## views/list.py : ListView.paginate_queryset

The override catches any exception from the base implementation and, when
the requested page number parses as an integer, clamps it to the
paginator's last page.  Django's `Paginator` (the host framework, not part
of this repository) is modelled by its documented semantics: `num_pages`,
`validate_number`, `page(number).object_list` and
`Page.has_other_pages()`. -/

/-- Decimal value of a digit list (used by the `int(...)` model). -/
def digitsToNat (l : List Char) : Nat :=
  l.foldl (fun acc c => acc * 10 + (c.toNat - '0'.toNat)) 0

/-- Python `int(s)` on a string: optional surrounding whitespace, an optional
sign, then at least one decimal digit; `none` models `ValueError`. -/
def pyInt (s : String) : Option Int :=
  let t := s.toList.dropWhile (fun c => c.isWhitespace)
  let t2 := (t.reverse.dropWhile (fun c => c.isWhitespace)).reverse
  let sd : Int × List Char :=
    match t2 with
    | '+' :: rest => (1, rest)
    | '-' :: rest => (-1, rest)
    | l => (1, l)
  if sd.2 ≠ [] ∧ sd.2.all Char.isDigit then some (sd.1 * digitsToNat sd.2)
  else none

/-- The Django `Paginator` built by `self.get_paginator(queryset, page_size,
orphans=self.get_paginate_orphans(), allow_empty_first_page=self.get_allow_empty())`. -/
structure Paginator (α : Type) where
  object_list : List α
  per_page : Nat
  orphans : Nat
  allow_empty_first_page : Bool
deriving DecidableEq, Repr

/-- Django `Paginator.count`: the length of the object list. -/
def Paginator.count {α : Type} (p : Paginator α) : Nat := p.object_list.length

/-- Django `Paginator.num_pages`: `0` when the queryset is empty and an
empty first page is not allowed, otherwise
`ceil(max(1, count - orphans) / per_page)`. -/
def Paginator.num_pages {α : Type} (p : Paginator α) : Nat :=
  if p.count = 0 ∧ ¬p.allow_empty_first_page then 0
  else (max 1 (p.count - p.orphans) + p.per_page - 1) / p.per_page

/-- Django `Paginator.validate_number` on an integer page number: `EmptyPage`
below 1; `EmptyPage` above `num_pages` unless the number is 1 and an empty
first page is allowed. -/
def Paginator.validate_number {α : Type} (p : Paginator α) (n : Int) :
    Except String Int :=
  if n < 1 then Except.error "That page number is less than 1"
  else if n > (p.num_pages : Int) then
    if n = 1 ∧ p.allow_empty_first_page then Except.ok n
    else Except.error "That page contains no results"
  else Except.ok n

/-- The object list of Django `Paginator.page(number)`:
`object_list[(number-1)*per_page : top]`, `top` clamped to `count` when
within `orphans` of it. -/
def Paginator.pageObjects {α : Type} (p : Paginator α) (number : Nat) : List α :=
  let bottom := (number - 1) * p.per_page
  let top0 := bottom + p.per_page
  let top := if p.count ≤ top0 + p.orphans then p.count else top0
  (p.object_list.drop bottom).take (top - bottom)

/-- Django `Page.has_other_pages()`: a previous or a next page exists. -/
def Paginator.hasOtherPages {α : Type} (p : Paginator α) (number : Nat) : Bool :=
  decide (1 < number) || decide (number < p.num_pages)

/-- Outcome of the overridden `ListView.paginate_queryset`
(src/views/list.py lines 127-164): the returned 4-tuple
`(paginator, page_number, object_list, has_other_pages)`, the re-raise of
the exception originally raised by the base implementation, or the
`Http404`. -/
inductive PaginateOutcome (α : Type) where
  | success (paginator : Paginator α) (page_number : Nat) (object_list : List α)
      (has_other_pages : Bool)
  | reraised
  | http404 (page_number : Int) (message : String)
deriving DecidableEq, Repr

/-- `self.kwargs.get(page_kwarg) or self.request.GET.get(page_kwarg) or 1`:
Python `or` skips `None` and the empty string; `none` stands for reaching
the final literal `1`. -/
def resolvePageParam (kwargs_page get_page : Option String) : Option String :=
  match kwargs_page with
  | some s =>
      if s = "" then
        match get_page with
        | some t => if t = "" then none else some t
        | none => none
      else some s
  | none =>
      match get_page with
      | some t => if t = "" then none else some t
      | none => none

/-- `int(page)` applied to the resolved page parameter (the final default
`1` converts to `1`); `none` models the `ValueError` branch. -/
def pageNumberOf (kwargs_page get_page : Option String) : Option Int :=
  match resolvePageParam kwargs_page get_page with
  | none => some 1
  | some s => pyInt s

/-- The `except` branch of `ListView.paginate_queryset` (src/views/list.py
lines 135-164): re-raise when the page parameter does not parse as an
integer; otherwise build the paginator, clamp the page number to
`num_pages` when above it, and return `paginator.page(page_number)` data or
an `Http404` carrying the page number and the paginator's message. -/
def paginate_fallback (α : Type) (queryset : List α) (page_size orphans : Nat)
    (allow_empty : Bool) (kwargs_page get_page : Option String) :
    PaginateOutcome α :=
  match pageNumberOf kwargs_page get_page with
  | none => PaginateOutcome.reraised
  | some n0 =>
      let paginator : Paginator α := ⟨queryset, page_size, orphans, allow_empty⟩
      let page_number :=
        if n0 > (paginator.num_pages : Int) then (paginator.num_pages : Int) else n0
      match paginator.validate_number page_number with
      | Except.error msg =>
          PaginateOutcome.http404 page_number
            ("Invalid page (" ++ toString page_number ++ "): " ++ msg)
      | Except.ok m =>
          PaginateOutcome.success paginator m.toNat (paginator.pageObjects m.toNat)
            (paginator.hasOtherPages m.toNat)

/-- `ListView.paginate_queryset` itself: the base implementation's result
when it does not raise (`base_result = some ...`), the fallback otherwise. -/
def paginate_queryset (α : Type)
    (base_result : Option (Paginator α × Nat × List α × Bool))
    (queryset : List α) (page_size orphans : Nat) (allow_empty : Bool)
    (kwargs_page get_page : Option String) : PaginateOutcome α :=
  match base_result with
  | some r => PaginateOutcome.success r.1 r.2.1 r.2.2.1 r.2.2.2
  | none => paginate_fallback α queryset page_size orphans allow_empty kwargs_page get_page

theorem num_pages_pos {α : Type} (queryset : List α) (page_size orphans : Nat)
    (h : 1 ≤ page_size) :
    1 ≤ (Paginator.mk queryset page_size orphans true).num_pages := by
  unfold Paginator.num_pages
  simp only [Paginator.count]
  rw [if_neg (by simp)]
  rw [Nat.le_div_iff_mul_le h]
  have h1 : 1 ≤ max 1 (queryset.length - orphans) := le_max_left 1 _
  omega

/-- C2: when the base pagination raises and the requested page parameter
parses as an integer strictly greater than the paginator's number of pages,
`ListView.paginate_queryset` returns the last valid page: the tuple
`(paginator, num_pages, object list of page num_pages, has_other_pages)`.
(`get_allow_empty()` is `true`, the view's default.) -/
theorem paginate_queryset_clamps_to_last_page {α : Type} (queryset : List α)
    (page_size orphans : Nat) (kwargs_page get_page : Option String) (n : Int)
    (hpp : 1 ≤ page_size)
    (hn : pageNumberOf kwargs_page get_page = some n)
    (hgt : ((Paginator.mk queryset page_size orphans true).num_pages : Int) < n) :
    paginate_queryset α none queryset page_size orphans true kwargs_page get_page =
      PaginateOutcome.success (Paginator.mk queryset page_size orphans true)
        (Paginator.mk queryset page_size orphans true).num_pages
        ((Paginator.mk queryset page_size orphans true).pageObjects
          (Paginator.mk queryset page_size orphans true).num_pages)
        ((Paginator.mk queryset page_size orphans true).hasOtherPages
          (Paginator.mk queryset page_size orphans true).num_pages) := by
  have hnp := num_pages_pos queryset page_size orphans hpp
  simp only [paginate_queryset, paginate_fallback, hn, Paginator.validate_number]
  rw [if_pos hgt]
  rw [if_neg (by omega), if_neg (by omega)]
  simp

theorem paginate_queryset_clamps_witness :
    paginate_queryset Nat none [10, 20, 30] 1 0 true (some "5") none =
      PaginateOutcome.success (Paginator.mk [10, 20, 30] 1 0 true) 3 [30] true := by
  have h := paginate_queryset_clamps_to_last_page (α := Nat) [10, 20, 30] 1 0
    (some "5") none 5 (by decide) (by decide) (by decide)
  simpa using h

/-- C7: once the base pagination has raised, `ListView.paginate_queryset`
resolves the failure in exactly one of the stated ways: the original
exception re-raised when the page parameter does not parse as an integer;
an `Http404` carrying the clamped page number and the paginator's message
when the clamped number is still invalid (below 1); and the page tuple for
the clamped number otherwise — never any other outcome. -/
theorem paginate_queryset_error_handling {α : Type} (queryset : List α)
    (page_size orphans : Nat) (allow_empty : Bool)
    (kwargs_page get_page : Option String) :
    (pageNumberOf kwargs_page get_page = none →
      paginate_queryset α none queryset page_size orphans allow_empty
          kwargs_page get_page =
        PaginateOutcome.reraised) ∧
    (∀ n m : Int, pageNumberOf kwargs_page get_page = some n →
      m = (if n > ((Paginator.mk queryset page_size orphans allow_empty).num_pages : Int)
           then ((Paginator.mk queryset page_size orphans allow_empty).num_pages : Int)
           else n) →
      (m < 1 →
        paginate_queryset α none queryset page_size orphans allow_empty
            kwargs_page get_page =
          PaginateOutcome.http404 m
            ("Invalid page (" ++ toString m ++ "): " ++
              "That page number is less than 1")) ∧
      (1 ≤ m →
        paginate_queryset α none queryset page_size orphans allow_empty
            kwargs_page get_page =
          PaginateOutcome.success (Paginator.mk queryset page_size orphans allow_empty)
            m.toNat
            ((Paginator.mk queryset page_size orphans allow_empty).pageObjects m.toNat)
            ((Paginator.mk queryset page_size orphans allow_empty).hasOtherPages
              m.toNat))) := by
  refine ⟨?_, ?_⟩
  · intro h
    simp [paginate_queryset, paginate_fallback, h]
  · intro n m hn hm
    have hle : m ≤ ((Paginator.mk queryset page_size orphans allow_empty).num_pages : Int) ∨
        m = n := by
      rw [hm]; split <;> omega
    simp only [paginate_queryset, paginate_fallback, hn, Paginator.validate_number]
    rw [← hm]
    constructor
    · intro hlt
      rw [if_pos hlt]
    · intro hge
      have hle2 : m ≤ ((Paginator.mk queryset page_size orphans allow_empty).num_pages : Int) := by
        rw [hm]; split <;> omega
      rw [if_neg (by omega), if_neg (by omega)]

theorem paginate_queryset_error_handling_witness :
    paginate_queryset Nat none [10] 1 0 true (some "abc") none =
        PaginateOutcome.reraised ∧
    paginate_queryset Nat none ([] : List Nat) 1 0 false (some "5") none =
        PaginateOutcome.http404 0 "Invalid page (0): That page number is less than 1" ∧
    paginate_queryset Nat none [10, 20] 1 0 true (some "2") none =
        PaginateOutcome.success (Paginator.mk [10, 20] 1 0 true) 2 [20] true := by
  refine ⟨?_, ?_, ?_⟩
  · exact (paginate_queryset_error_handling (α := Nat) [10] 1 0 true
      (some "abc") none).1 (by decide)
  · have h := (paginate_queryset_error_handling (α := Nat) [] 1 0 false
      (some "5") none).2 5 0 (by decide) (by decide)
    exact (h.1 (by decide)).trans (by decide)
  · have h := (paginate_queryset_error_handling (α := Nat) [10, 20] 1 0 true
      (some "2") none).2 2 2 (by decide) (by decide)
    exact (h.2 (by decide)).trans (by decide)

/-! ## views/mixins.py : ViewMixin lazy getters

Each getter reads its backing attribute, computes and stores a default only
when the attribute is `None`, and returns the attribute.  A getter is
modelled as a function from the instance state to the returned value
paired with the updated state. -/

/-- The Django settings consulted by the `ViewMixin` defaults:
`LANGUAGE_SITE` may be absent (`AttributeError` caught by the bare
`except`), `LANGUAGE_CODE` always exists; `get_home_url()` is abstracted as
a fixed string, `TEMPLATE_PATHS` as in `get_template_path`. -/
structure MixinEnv where
  language_site : Option String
  language_code : String
  home_url : String
  template_paths : Option (List (String × Option String))

/-- The backing attributes of `ViewMixin` (src/views/mixins.py lines 17-24);
`none` models Python `None`, the sentinel of the lazy getters. -/
structure ViewMixinState where
  title : Option String
  page_lang : Option String
  page_title : Option String
  breadcrumbs : Option (List (String × String))
  left_navbar_template : Option String
  right_navbar_template : Option String
  sidebar_itens_template : Option String
deriving DecidableEq, Repr

namespace ViewMixin

/-- `ViewMixin.get_page_lang` (src/views/mixins.py lines 26-37). -/
def get_page_lang (env : MixinEnv) (s : ViewMixinState) :
    Option String × ViewMixinState :=
  match s.page_lang with
  | some v => (some v, s)
  | none =>
      let v := match env.language_site with
        | some l => l
        | none => env.language_code
      (some v, { s with page_lang := some v })

/-- `ViewMixin.get_page_title` (src/views/mixins.py lines 39-47). -/
def get_page_title (s : ViewMixinState) : Option String × ViewMixinState :=
  match s.page_title with
  | some v => (some v, s)
  | none => (some "", { s with page_title := some "" })

/-- `ViewMixin.get_title` (src/views/mixins.py lines 49-57): the default is
`self.get_page_title()`, whose state effects are kept. -/
def get_title (s : ViewMixinState) : Option String × ViewMixinState :=
  match s.title with
  | some v => (some v, s)
  | none =>
      let r := get_page_title s
      (r.1, { r.2 with title := r.1 })

/-- `ViewMixin.get_breadcrumbs` (src/views/mixins.py lines 59-69). -/
def get_breadcrumbs (env : MixinEnv) (s : ViewMixinState) :
    Option (List (String × String)) × ViewMixinState :=
  match s.breadcrumbs with
  | some v => (some v, s)
  | none =>
      (some [("Home", env.home_url)],
       { s with breadcrumbs := some [("Home", env.home_url)] })

/-- `ViewMixin.get_left_navbar_template` (src/views/mixins.py lines 83-91):
the computed default `get_template_path('navbar_left')` may itself be
`None`, in which case the attribute stays `None`. -/
def get_left_navbar_template (env : MixinEnv) (s : ViewMixinState) :
    Option String × ViewMixinState :=
  match s.left_navbar_template with
  | some v => (some v, s)
  | none =>
      let v := get_template_path env.template_paths "navbar_left"
      (v, { s with left_navbar_template := v })

/-- `ViewMixin.get_right_navbar_template` (src/views/mixins.py lines 93-101). -/
def get_right_navbar_template (env : MixinEnv) (s : ViewMixinState) :
    Option String × ViewMixinState :=
  match s.right_navbar_template with
  | some v => (some v, s)
  | none =>
      let v := get_template_path env.template_paths "navbar_right"
      (v, { s with right_navbar_template := v })

/-- `ViewMixin.get_sidebar_itens_template` (src/views/mixins.py lines 103-111). -/
def get_sidebar_itens_template (env : MixinEnv) (s : ViewMixinState) :
    Option String × ViewMixinState :=
  match s.sidebar_itens_template with
  | some v => (some v, s)
  | none =>
      let v := get_template_path env.template_paths "sidebar_itens"
      (v, { s with sidebar_itens_template := v })

end ViewMixin

/-- C9: every lazy-initialized `ViewMixin` getter is idempotent — a second
call returns the same value and leaves the state unchanged; the first call
fixes the backing attribute to the returned value; and a value supplied at
class creation is returned unchanged with no state change. -/
theorem viewmixin_getters_idempotent (env : MixinEnv) (s : ViewMixinState)
    (v : String) (bc : List (String × String)) :
    (ViewMixin.get_page_lang env (ViewMixin.get_page_lang env s).2 =
        ViewMixin.get_page_lang env s ∧
      ViewMixin.get_page_title (ViewMixin.get_page_title s).2 =
        ViewMixin.get_page_title s ∧
      ViewMixin.get_title (ViewMixin.get_title s).2 = ViewMixin.get_title s ∧
      ViewMixin.get_breadcrumbs env (ViewMixin.get_breadcrumbs env s).2 =
        ViewMixin.get_breadcrumbs env s ∧
      ViewMixin.get_left_navbar_template env
          (ViewMixin.get_left_navbar_template env s).2 =
        ViewMixin.get_left_navbar_template env s ∧
      ViewMixin.get_right_navbar_template env
          (ViewMixin.get_right_navbar_template env s).2 =
        ViewMixin.get_right_navbar_template env s ∧
      ViewMixin.get_sidebar_itens_template env
          (ViewMixin.get_sidebar_itens_template env s).2 =
        ViewMixin.get_sidebar_itens_template env s) ∧
    ((ViewMixin.get_page_lang env s).2.page_lang =
        (ViewMixin.get_page_lang env s).1 ∧
      (ViewMixin.get_page_title s).2.page_title = (ViewMixin.get_page_title s).1 ∧
      (ViewMixin.get_title s).2.title = (ViewMixin.get_title s).1 ∧
      (ViewMixin.get_breadcrumbs env s).2.breadcrumbs =
        (ViewMixin.get_breadcrumbs env s).1 ∧
      (ViewMixin.get_left_navbar_template env s).2.left_navbar_template =
        (ViewMixin.get_left_navbar_template env s).1 ∧
      (ViewMixin.get_right_navbar_template env s).2.right_navbar_template =
        (ViewMixin.get_right_navbar_template env s).1 ∧
      (ViewMixin.get_sidebar_itens_template env s).2.sidebar_itens_template =
        (ViewMixin.get_sidebar_itens_template env s).1) ∧
    (ViewMixin.get_page_lang env { s with page_lang := some v } =
        (some v, { s with page_lang := some v }) ∧
      ViewMixin.get_page_title { s with page_title := some v } =
        (some v, { s with page_title := some v }) ∧
      ViewMixin.get_title { s with title := some v } =
        (some v, { s with title := some v }) ∧
      ViewMixin.get_breadcrumbs env { s with breadcrumbs := some bc } =
        (some bc, { s with breadcrumbs := some bc }) ∧
      ViewMixin.get_left_navbar_template env
          { s with left_navbar_template := some v } =
        (some v, { s with left_navbar_template := some v }) ∧
      ViewMixin.get_right_navbar_template env
          { s with right_navbar_template := some v } =
        (some v, { s with right_navbar_template := some v }) ∧
      ViewMixin.get_sidebar_itens_template env
          { s with sidebar_itens_template := some v } =
        (some v, { s with sidebar_itens_template := some v })) := by
  refine ⟨⟨?_, ?_, ?_, ?_, ?_, ?_, ?_⟩, ⟨?_, ?_, ?_, ?_, ?_, ?_, ?_⟩,
    ⟨?_, ?_, ?_, ?_, ?_, ?_, ?_⟩⟩
  · cases h : s.page_lang <;> simp [ViewMixin.get_page_lang, h]
  · cases h : s.page_title <;> simp [ViewMixin.get_page_title, h]
  · cases ht : s.title <;> cases hp : s.page_title <;>
      simp [ViewMixin.get_title, ViewMixin.get_page_title, ht, hp]
  · cases h : s.breadcrumbs <;> simp [ViewMixin.get_breadcrumbs, h]
  · cases h : s.left_navbar_template <;>
      cases hv : get_template_path env.template_paths "navbar_left" <;>
      simp [ViewMixin.get_left_navbar_template, h, hv]
  · cases h : s.right_navbar_template <;>
      cases hv : get_template_path env.template_paths "navbar_right" <;>
      simp [ViewMixin.get_right_navbar_template, h, hv]
  · cases h : s.sidebar_itens_template <;>
      cases hv : get_template_path env.template_paths "sidebar_itens" <;>
      simp [ViewMixin.get_sidebar_itens_template, h, hv]
  · cases h : s.page_lang <;> simp [ViewMixin.get_page_lang, h]
  · cases h : s.page_title <;> simp [ViewMixin.get_page_title, h]
  · cases ht : s.title <;> cases hp : s.page_title <;>
      simp [ViewMixin.get_title, ViewMixin.get_page_title, ht, hp]
  · cases h : s.breadcrumbs <;> simp [ViewMixin.get_breadcrumbs, h]
  · cases h : s.left_navbar_template <;>
      simp [ViewMixin.get_left_navbar_template, h]
  · cases h : s.right_navbar_template <;>
      simp [ViewMixin.get_right_navbar_template, h]
  · cases h : s.sidebar_itens_template <;>
      simp [ViewMixin.get_sidebar_itens_template, h]
  · simp [ViewMixin.get_page_lang]
  · simp [ViewMixin.get_page_title]
  · simp [ViewMixin.get_title]
  · simp [ViewMixin.get_breadcrumbs]
  · simp [ViewMixin.get_left_navbar_template]
  · simp [ViewMixin.get_right_navbar_template]
  · simp [ViewMixin.get_sidebar_itens_template]

/-! ## views/detail.py & views/delete.py : AJAX header switch

`request.headers.get('x-requested-with')` is the request's
`X-Requested-With` header (Django header lookup is case-insensitive),
`none` when absent.  What the claims distinguish about a response is
whether it is the `JsonResponse` (payload and status), the AJAX partial
rendered by `render_to_response` in the AJAX branch of `DetailView.get`,
or the base class's response produced by `super().get` / `super().post`
with the template name left in `self.template_name`. -/

/-- The check `request.headers.get('x-requested-with') == 'XMLHttpRequest'`. -/
def is_ajax_request (x_requested_with : Option String) : Bool :=
  x_requested_with == some "XMLHttpRequest"

/-- A view response as far as the claims inspect it. -/
inductive Response where
  | json (payload : List (String × String)) (status : Nat)
  | ajax_rendered (template : Option String)
  | base (template : Option String)
deriving DecidableEq, Repr

/-- `DetailView.get` (src/views/detail.py lines 145-166): on AJAX, render
the object context with `template_name` defaulted to
`get_template_path('detail_ajax')`; otherwise default it to
`get_template_path('detail')` and delegate to the base implementation. -/
def DetailView.get (x_requested_with : Option String) (template_name : Option String)
    (template_paths : Option (List (String × Option String))) : Response :=
  if is_ajax_request x_requested_with then
    Response.ajax_rendered
      (match template_name with
       | none => get_template_path template_paths "detail_ajax"
       | some t => some t)
  else
    Response.base
      (match template_name with
       | none => get_template_path template_paths "detail"
       | some t => some t)

/-- `DeleteView.get` (src/views/delete.py lines 136-148): on AJAX, a
`JsonResponse` with the page title and delete message (default status 200);
otherwise the base implementation's response. -/
def DeleteView.get (x_requested_with : Option String)
    (page_title message_delete : String) (template_name : Option String) : Response :=
  if is_ajax_request x_requested_with then
    Response.json [("title", page_title), ("message", message_delete)] 200
  else Response.base template_name

/-- `DeleteView.post` (src/views/delete.py lines 150-170): on AJAX, delete
the object and answer status 200 when the form is valid, answer status 400
when it is not; otherwise the base implementation's response. -/
def DeleteView.post (x_requested_with : Option String) (form_valid : Bool)
    (template_name : Option String) : Response :=
  if is_ajax_request x_requested_with then
    if form_valid then Response.json [("message", "Deleted successfully")] 200
    else Response.json [("message", "Error deleting")] 400
  else Response.base template_name

/-- C4: the response format of the detail and delete views is decided by the
AJAX header check alone.  A request whose `X-Requested-With` header equals
`XMLHttpRequest` receives the JSON response — `DeleteView.get` a JSON body
with `title` and `message`, `DeleteView.post` JSON with status 200 after a
successful delete and status 400 when the form is invalid — and
`DetailView.get` switches to the AJAX response for the object; any other
request receives the (HTML) response of the base implementation. -/
theorem ajax_header_switch (header : Option String)
    (page_title message_delete : String) (template_name : Option String)
    (template_paths : Option (List (String × Option String))) :
    (header = some "XMLHttpRequest" →
      DeleteView.get header page_title message_delete template_name =
          Response.json [("title", page_title), ("message", message_delete)] 200 ∧
      DeleteView.post header true template_name =
          Response.json [("message", "Deleted successfully")] 200 ∧
      DeleteView.post header false template_name =
          Response.json [("message", "Error deleting")] 400 ∧
      DetailView.get header none template_paths =
          Response.ajax_rendered (get_template_path template_paths "detail_ajax")) ∧
    (header ≠ some "XMLHttpRequest" →
      DeleteView.get header page_title message_delete template_name =
          Response.base template_name ∧
      (∀ form_valid : Bool,
        DeleteView.post header form_valid template_name =
          Response.base template_name) ∧
      DetailView.get header none template_paths =
          Response.base (get_template_path template_paths "detail")) := by
  constructor
  · intro h
    subst h
    refine ⟨rfl, rfl, rfl, rfl⟩
  · intro h
    have hb : is_ajax_request header = false := by
      cases header with
      | none => rfl
      | some s =>
          simp only [is_ajax_request, Option.some.injEq] at h ⊢
          simpa using fun hs => h (by simp [hs])
    refine ⟨?_, fun fv => ?_, ?_⟩ <;>
      simp [DeleteView.get, DeleteView.post, DetailView.get, hb]

theorem ajax_header_switch_witness :
    DeleteView.get (some "XMLHttpRequest") "Delete Book" "Are you sure?" none =
        Response.json [("title", "Delete Book"), ("message", "Are you sure?")] 200 ∧
    DeleteView.post (some "XMLHttpRequest") false none =
        Response.json [("message", "Error deleting")] 400 ∧
    DetailView.get none none none = Response.base (some "django_auto_crud/crud/detail.html") := by
  refine ⟨?_, ?_, ?_⟩
  · exact ((ajax_header_switch (some "XMLHttpRequest") "Delete Book" "Are you sure?"
      none none).1 rfl).1
  · exact ((ajax_header_switch (some "XMLHttpRequest") "Delete Book" "Are you sure?"
      none none).1 rfl).2.2.1
  · have h := ((ajax_header_switch none "Delete Book" "Are you sure?" none none).2
      (by simp)).2.2
    exact h.trans (by decide)

/-! ## templatetags/django_auto_crud_tags.py : detail items and table body -/

/-- A model instance as the template tags use it: `getattr` as an
association list (`none` = missing attribute, `AttributeError`; a
`get_<field>` entry holds the value the bound method returns when called);
`meta_fields` is `[f.name for f in obj._meta.get_fields()]`;
`verbose_names` is `obj._meta.get_field(f).verbose_name`
(`none` = `FieldDoesNotExist`); `pk` the primary key. -/
structure PyObject where
  attrs : List (String × String)
  meta_fields : List String
  verbose_names : List (String × String)
  pk : Int
deriving DecidableEq, Repr

/-- `getattr(obj, name)`, `none` for a missing attribute. -/
def PyObject.getattrOpt (o : PyObject) (name : String) : Option String :=
  lookupKey o.attrs name

/-- `hasattr(obj, name)`. -/
def PyObject.hasattr (o : PyObject) (name : String) : Bool :=
  (o.getattrOpt name).isSome

/-- The per-field value computation shared verbatim by
`create_details_object_fields` (lines 78-84) and `create_body_table`
(lines 261-266): `getattr(obj, f'get_{field}')()` when the object has that
attribute, `getattr(obj, field)` otherwise. -/
def field_display_value (o : PyObject) (field : String) : Option String :=
  if PyObject.hasattr o ("get_" ++ field) then PyObject.getattrOpt o ("get_" ++ field)
  else PyObject.getattrOpt o field

/-- The `fields` argument of the template tags: Python `None`, the string
`'__all__'`, a list of field names, or any other value (non-falsy,
non-list, not `'__all__'`), which the validation rejects with a
`TypeError`. -/
inductive FieldsArg where
  | none_
  | all
  | list_ (fs : List String)
  | other
deriving DecidableEq, Repr

/-- `if not fields or fields == '__all__': fields = [f.name for f in ..._meta.get_fields()]
elif not isinstance(fields, list): raise TypeError(...)`; the empty list is
falsy in Python and is likewise replaced by all model fields. -/
def normalizeFields (meta_fields : List String) : FieldsArg → Except String (List String)
  | FieldsArg.none_ => Except.ok meta_fields
  | FieldsArg.all => Except.ok meta_fields
  | FieldsArg.list_ fs => if fs.isEmpty then Except.ok meta_fields else Except.ok fs
  | FieldsArg.other => Except.error "fields must be a list of strings or __all__"

/-- The detail item HTML of `create_details_object_fields` (lines 88-93). -/
def detailItemHtml (field_name field_value : String) : String :=
  "<li class=\"item\"><div class=\"item-info\">" ++
    "<a href=\"javascript:void(0)\" class=\"product-title\">" ++ field_name ++ "</a>" ++
    "<p>" ++ field_value ++ "</p></div></li>" ++ "<!-- /.item -->"

/-- The detail-item loop of `create_details_object_fields` (lines 77-95):
per field, the displayed value (an `AttributeError` propagates), then the
field's verbose name (a `FieldDoesNotExist` propagates). -/
def detailItems (o : PyObject) : List String → Except String (List String)
  | [] => Except.ok []
  | field :: rest =>
      match field_display_value o field with
      | none => Except.error "AttributeError"
      | some v =>
          match lookupKey o.verbose_names field with
          | none => Except.error "FieldDoesNotExist"
          | some vn =>
              match detailItems o rest with
              | Except.error e => Except.error e
              | Except.ok tail => Except.ok (detailItemHtml vn v :: tail)

/-- Embedding of `create_details_object_fields`
(src/templatetags/django_auto_crud_tags.py lines 61-98). -/
def create_details_object_fields (o : PyObject) (fields : FieldsArg) :
    Except String String :=
  match normalizeFields o.meta_fields fields with
  | Except.error e => Except.error e
  | Except.ok fs =>
      match detailItems o fs with
      | Except.error e => Except.error e
      | Except.ok items => Except.ok (String.join items)

/-- URL reverse-resolution as the action buttons use it: `reverse pn pk`
is `reverse_lazy(path_name, kwargs={'pk': obj.pk})` (the brace text of the
Python call written out), and the other three are the
`get_model_*_view_url(model, pk)` defaults of src/utils/views.py. -/
structure UrlEnv where
  reverse : String → Int → String
  detail_url : Int → String
  update_url : Int → String
  delete_url : Int → String

/-- One action button of `get_column_actions` (lines 175-222); an unknown
action leaves `button_action` as `None`, which is not appended — the empty
string here. -/
def actionButton (env : UrlEnv) (pk : Int) (action : String)
    (path_name : Option String) : String :=
  if action = "detail" ∨ action = "detail_ajax" then
    let url := match path_name with
      | some pn => env.reverse pn pk
      | none => env.detail_url pk
    if action = "detail" then
      "<a href=\"" ++ url ++ "\" class=\"btn btn-info btn-sm m-1\"><i class=\"fas fa-eye\"></i></a>"
    else
      "<a data-url=\"" ++ url ++ "\" class=\"btn btn-info btn-sm m-1 detail-ajax\"><i class=\"fas fa-eye\"></i></a>"
  else if action = "update" then
    let url := match path_name with
      | some pn => env.reverse pn pk
      | none => env.update_url pk
    "<a href=\"" ++ url ++ "\" class=\"btn btn-warning btn-sm m-1\"><i class=\"fas fa-edit\"></i></a>"
  else if action = "delete" ∨ action = "delete_ajax" then
    let url := match path_name with
      | some pn => env.reverse pn pk
      | none => env.delete_url pk
    if action = "delete" then
      "<a href=\"" ++ url ++ "\" class=\"btn btn-danger btn-sm m-1\"><i class=\"fas fa-trash\"></i></a>"
    else
      "<a data-url=\"" ++ url ++ "\" class=\"btn btn-danger btn-sm m-1 delete-ajax\">" ++
        "<i class=\"fas fa-trash\"></i></a>"
  else ""

/-- Embedding of `get_column_actions` (lines 161-227): empty for a falsy
`actions` (absent or the empty dict), otherwise the `<td>`-wrapped buttons
of the action items in order. -/
def get_column_actions (env : UrlEnv) (o : PyObject)
    (actions : Option (List (String × Option String))) : String :=
  match actions with
  | none => ""
  | some acts =>
      if acts.isEmpty then ""
      else
        "<td class=\"text-center\">" ++
          String.join (acts.map (fun a => actionButton env o.pk a.1 a.2)) ++ "</td>"

/-- The column loop of `create_body_table` (lines 259-268): one `<td>` per
field, an `AttributeError` propagating. -/
def bodyCols (o : PyObject) : List String → Except String (List String)
  | [] => Except.ok []
  | field :: rest =>
      match field_display_value o field with
      | none => Except.error "AttributeError"
      | some v =>
          match bodyCols o rest with
          | Except.error e => Except.error e
          | Except.ok tail => Except.ok (("<td>" ++ v ++ "</td>") :: tail)

/-- The row loop of `create_body_table` (lines 255-277). -/
def bodyRows (env : UrlEnv) (actions : Option (List (String × Option String)))
    (fs : List String) : List PyObject → Except String (List String)
  | [] => Except.ok []
  | o :: rest =>
      match bodyCols o fs with
      | Except.error e => Except.error e
      | Except.ok cols =>
          match bodyRows env actions fs rest with
          | Except.error e => Except.error e
          | Except.ok tail =>
              Except.ok
                (("<tr>" ++ String.join cols ++ get_column_actions env o actions ++ "</tr>")
                  :: tail)

/-- Embedding of `create_body_table`
(src/templatetags/django_auto_crud_tags.py lines 230-280): for an empty
object list a single "No data available" row, with the `fields` argument
never validated and no field accessed; otherwise `fields` is normalized
against the first object's meta fields and one row is built per object. -/
def create_body_table (env : UrlEnv) (objects : List PyObject) (fields : FieldsArg)
    (actions : Option (List (String × Option String))) : Except String String :=
  match objects with
  | [] => Except.ok "<tr><td colspan=\"100%\">No data available</td></tr>"
  | o0 :: rest =>
      match normalizeFields o0.meta_fields fields with
      | Except.error e => Except.error e
      | Except.ok fs =>
          match bodyRows env actions fs (o0 :: rest) with
          | Except.error e => Except.error e
          | Except.ok rows => Except.ok (String.join rows)

/-- C6: in `create_details_object_fields` and `create_body_table` the
displayed value of a field is obtained from the object's `get_<field>`
method whenever the object has an attribute of that name, and from the
attribute named `field` otherwise — the `get_<field>` accessor always takes
precedence; both functions render exactly that value. -/
theorem get_accessor_precedence (o : PyObject) (field : String) (env : UrlEnv)
    (actions : Option (List (String × Option String))) (v vn : String) :
    (PyObject.hasattr o ("get_" ++ field) = true →
      field_display_value o field = PyObject.getattrOpt o ("get_" ++ field)) ∧
    (PyObject.hasattr o ("get_" ++ field) = false →
      field_display_value o field = PyObject.getattrOpt o field) ∧
    (field_display_value o field = some v →
      lookupKey o.verbose_names field = some vn →
      create_details_object_fields o (FieldsArg.list_ [field]) =
          Except.ok (detailItemHtml vn v) ∧
      create_body_table env [o] (FieldsArg.list_ [field]) actions =
          Except.ok
            ("<tr>" ++ ("<td>" ++ v ++ "</td>") ++ get_column_actions env o actions ++
              "</tr>")) := by
  refine ⟨?_, ?_, ?_⟩
  · intro h
    simp [field_display_value, h]
  · intro h
    simp [field_display_value, h]
  · intro hv hvn
    constructor
    · simp [create_details_object_fields, normalizeFields, detailItems, hv, hvn,
        String.join]
    · simp [create_body_table, normalizeFields, bodyRows, bodyCols, hv, String.join]

theorem get_accessor_precedence_witness :
    field_display_value
        (PyObject.mk [("get_name", "FROM GETTER"), ("name", "FROM ATTRIBUTE")]
          ["name"] [("name", "Name")] 1) "name" =
      PyObject.getattrOpt
        (PyObject.mk [("get_name", "FROM GETTER"), ("name", "FROM ATTRIBUTE")]
          ["name"] [("name", "Name")] 1) "get_name" ∧
    field_display_value
        (PyObject.mk [("name", "FROM ATTRIBUTE")] ["name"] [("name", "Name")] 1)
        "name" =
      PyObject.getattrOpt
        (PyObject.mk [("name", "FROM ATTRIBUTE")] ["name"] [("name", "Name")] 1)
        "name" ∧
    create_details_object_fields
        (PyObject.mk [("get_name", "FROM GETTER"), ("name", "FROM ATTRIBUTE")]
          ["name"] [("name", "Name")] 1)
        (FieldsArg.list_ ["name"]) =
      Except.ok (detailItemHtml "Name" "FROM GETTER") := by
  refine ⟨?_, ?_, ?_⟩
  · exact (get_accessor_precedence
      (PyObject.mk [("get_name", "FROM GETTER"), ("name", "FROM ATTRIBUTE")]
        ["name"] [("name", "Name")] 1) "name"
      (UrlEnv.mk (fun pn _ => pn) (fun _ => "") (fun _ => "") (fun _ => "")) none
      "FROM GETTER" "Name").1 (by decide)
  · exact (get_accessor_precedence
      (PyObject.mk [("name", "FROM ATTRIBUTE")] ["name"] [("name", "Name")] 1) "name"
      (UrlEnv.mk (fun pn _ => pn) (fun _ => "") (fun _ => "") (fun _ => "")) none
      "FROM ATTRIBUTE" "Name").2.1 (by decide)
  · exact ((get_accessor_precedence
      (PyObject.mk [("get_name", "FROM GETTER"), ("name", "FROM ATTRIBUTE")]
        ["name"] [("name", "Name")] 1) "name"
      (UrlEnv.mk (fun pn _ => pn) (fun _ => "") (fun _ => "") (fun _ => "")) none
      "FROM GETTER" "Name").2.2 (by decide) (by decide)).1

/-- C10: for the empty object list `create_body_table` returns exactly the
single "No data available" row, for every value of the `fields` and
`actions` arguments — including the `fields` values that would raise a
`TypeError` on a non-empty list — and accesses no field. -/
theorem create_body_table_empty (env : UrlEnv) (fields : FieldsArg)
    (actions : Option (List (String × Option String))) :
    create_body_table env [] fields actions =
      Except.ok "<tr><td colspan=\"100%\">No data available</td></tr>" := rfl

end DjangoAutoCrud
